import Mathlib

/-!
# serverless-proxy: the forwarding handler of `main.go`

A shallow embedding of `proxyHandler.ServeHTTP` and `failRequest`.

The handler is sequential and keeps no state between requests.  Everything it
touches besides its own control flow is a collaborator outside the repository:

* `idtoken.NewClient` (the credential provider),
* `http.NewRequest`, `client.Do`, `io.Copy`, `resp.Body.Close` (net/http and io),
* the `http.ResponseWriter` it is handed, and `http.Error` / `http.StatusText`.

The collaborators whose answer depends on the outside world are collected in
`Env`; the handler is a pure function of `Env`, the response writer and the
inbound request.  It returns the response writer as the handler leaves it
together with the ordered list of calls it made (`Event`).

Go strings are modelled by `String`, byte slices by `List UInt8`, Go `error`
values by their text.
-/

namespace ServerlessProxy

/-! ## Data model -/

/-- Bytes of a body. -/
abbrev Bytes := List UInt8

/-- The bytes `fmt.Fprint` family writes for a Go string (its UTF-8 encoding). -/
def utf8 (s : String) : Bytes := s.toUTF8.data.toList

/-- The type `http.Header`: header names with all their values. -/
abbrev Header := List (String × List String)

/-- An `io.ReadCloser` as the handler sees it: the bytes the stream holds and,
when a copy out of it does not run to the end, the number of bytes transferred
before the copy stopped and the text of the error `io.Copy` reports.  The
handler never inspects either field; both are consumed by `ioCopy` only. -/
structure ReadCloser where
  data : Bytes
  fault : Option (Nat × String)
deriving DecidableEq, Repr

/-- The field `URL` of an inbound `http.Request`; only `Path` is read. -/
structure URL where
  Path : String
deriving DecidableEq, Repr

/-- The inbound `*http.Request` handed to `ServeHTTP` by the server: the
fields the handler reads.  The server parses `Method` from the request line
and rejects a request without one, so it is never empty on a request that
reaches a handler. -/
structure Request where
  Method : String
  URL : URL
  Header : Header
  Body : ReadCloser
deriving DecidableEq, Repr

/-- The outbound `*http.Request` built by `http.NewRequest`: method, the URL
string it was built from, header set and body stream. -/
structure ClientRequest where
  Method : String
  URL : String
  Header : Header
  Body : ReadCloser
deriving DecidableEq, Repr

/-- The `*http.Response` returned by `client.Do`. -/
structure Response where
  StatusCode : Nat
  Header : Header
  Body : ReadCloser
deriving DecidableEq, Repr

/-- The `*http.Client` returned by `idtoken.NewClient`: a transport that adds
an identity token to every request it sends. -/
structure Client where
  token : String
deriving DecidableEq, Repr

/-- The `http.ResponseWriter` of one request, as the handler drives it:
`status` is the status code of the first `WriteHeader` (explicit or implied by
a `Write`), `none` while no header has been written; `body` is the bytes handed
to `Write`, in order.  The header map of the writer is not modelled. -/
structure ResponseWriter where
  status : Option Nat
  body : Bytes
deriving DecidableEq, Repr

/-- The writer the server hands to a handler: nothing written yet. -/
def ResponseWriter.fresh : ResponseWriter := { status := none, body := [] }

/-- Method `WriteHeader` of the writer: the first call fixes the status, a later one is
ignored by net/http (it only logs a superfluous call). -/
def ResponseWriter.WriteHeader (w : ResponseWriter) (code : Nat) : ResponseWriter :=
  match w.status with
  | none => { w with status := some code }
  | some _ => w

/-- Method `Write` of the writer: a write before any `WriteHeader` implies
`WriteHeader(http.StatusOK)`; the bytes are appended to the body. -/
def ResponseWriter.Write (w : ResponseWriter) (p : Bytes) : ResponseWriter :=
  let w1 := w.WriteHeader 200
  { w1 with body := w1.body ++ p }

/-- The status line the caller receives once the handler has returned: when
the handler never wrote a header the server sends `200 OK`. -/
def ResponseWriter.callerStatus (w : ResponseWriter) : Nat := w.status.getD 200

namespace http

/-- Constant `http.StatusOK`. -/
def StatusOK : Nat := 200
/-- Constant `http.StatusUnauthorized`. -/
def StatusUnauthorized : Nat := 401
/-- Constant `http.StatusInternalServerError`. -/
def StatusInternalServerError : Nat := 500

/-- Function `http.StatusText`, on the codes that occur in this program and a few
neighbours; the empty string for an unknown code, as in net/http. -/
def StatusText (code : Nat) : String :=
  match code with
  | 200 => "OK"
  | 400 => "Bad Request"
  | 401 => "Unauthorized"
  | 403 => "Forbidden"
  | 404 => "Not Found"
  | 500 => "Internal Server Error"
  | 502 => "Bad Gateway"
  | 503 => "Service Unavailable"
  | _ => ""

/-- Function `http.Error(w, error, code)`: `w.WriteHeader(code)` followed by
`fmt.Fprintln(w, error)`. -/
def Error (w : ResponseWriter) (error : String) (code : Nat) : ResponseWriter :=
  (w.WriteHeader code).Write (utf8 (error ++ "\n"))

end http

/-- Function `io.Copy(w, src)`: transfers the stream to the writer until its end or
until the copy fails; returns the writer and the error, if any.  Nothing is
written when there is nothing to transfer. -/
def ioCopy (w : ResponseWriter) (src : ReadCloser) : ResponseWriter × Option String :=
  let moved : Bytes := match src.fault with
    | none => src.data
    | some (n, _) => src.data.take n
  let w1 := if moved = [] then w else w.Write moved
  (w1, src.fault.map Prod.snd)

/-- The outside world of one request. -/
structure Env where
  /-- Answer of `idtoken.NewClient(ctx, audience)`. -/
  newClient : String → Except String Client
  /-- The checks of `http.NewRequest` on method and URL: the error text when
  it rejects them, `none` when it accepts them. -/
  requestError : String → String → Option String
  /-- Answer of `client.Do(r)`. -/
  clientDo : Client → ClientRequest → Except String Response

/-- Function `http.NewRequest(method, url, body)`: net/http reads an empty method as
GET; when method and URL pass the checks, the request carries them and the
body, with an empty header set. -/
def http.NewRequest (env : Env) (method url : String) (body : ReadCloser) :
    Except String ClientRequest :=
  let method := if method = "" then "GET" else method
  match env.requestError method url with
  | some err => .error err
  | none => .ok { Method := method, URL := url, Header := [], Body := body }

/-- One call made by the handler, with its answer where it has one. -/
inductive Event where
  /-- Call `fmt.Printf` to standard output. -/
  | print (s : String)
  /-- Call `idtoken.NewClient(ph.ctx, audience)`. -/
  | newClient (audience : String) (res : Except String Client)
  /-- Call `http.NewRequest(method, url, body)`. -/
  | newRequest (method url : String) (body : ReadCloser) (res : Except String ClientRequest)
  /-- Call `client.Do(r)`. -/
  | clientDo (client : Client) (r : ClientRequest) (res : Except String Response)
  /-- Call `io.Copy(w, body)`. -/
  | copy (body : ReadCloser) (err : Option String)
  /-- Call `failRequest(w, status)`. -/
  | failRequest (status : Nat)
  /-- Call `body.Close()`. -/
  | close (body : ReadCloser)

/-! ## The program -/

/-- Function `failRequest` of main.go, lines 121-123.  The parameter `status` is not used. -/
def failRequest (w : ResponseWriter) (status : Nat) : ResponseWriter :=
  let _ := status
  http.Error w (http.StatusText http.StatusUnauthorized) http.StatusUnauthorized

/-- The string built on line 87 of main.go: `"https:/" + requestUrl`. -/
def destinationURL (requestUrl : String) : String := "https:/" ++ requestUrl

/-- Method `proxyHandler.ServeHTTP` of main.go, lines 81-119.  Returns the response writer
as the handler leaves it and the calls it made, in order.  The deferred
`resp.Body.Close()` runs when the function returns, hence last. -/
def ServeHTTP (env : Env) (w : ResponseWriter) (req : Request) :
    ResponseWriter × List Event :=
  let requestUrl := req.URL.Path
  let t := [Event.print ("requestUrl = " ++ requestUrl ++ "\n")]
  let url := destinationURL requestUrl
  let t := t ++ [Event.newClient url (env.newClient url)]
  match env.newClient url with
  | .error err =>
    let t := t ++ [Event.print ("idtoken.NewClient: " ++ err ++ "\n")]
    (failRequest w http.StatusUnauthorized, t ++ [Event.failRequest http.StatusUnauthorized])
  | .ok client =>
    let t := t ++ [Event.print ("Forwarding request to: " ++ url ++ "\n")]
    let t := t ++ [Event.newRequest req.Method url req.Body
      (http.NewRequest env req.Method url req.Body)]
    match http.NewRequest env req.Method url req.Body with
    | .error err =>
      let t := t ++ [Event.print ("http.NewRequest: " ++ err ++ "\n")]
      (failRequest w http.StatusInternalServerError,
        t ++ [Event.failRequest http.StatusInternalServerError])
    | .ok r0 =>
      let r : ClientRequest := { r0 with Header := req.Header }
      let t := t ++ [Event.clientDo client r (env.clientDo client r)]
      match env.clientDo client r with
      | .error err =>
        let t := t ++ [Event.print ("client.Get: " ++ err ++ "\n")]
        (failRequest w http.StatusInternalServerError,
          t ++ [Event.failRequest http.StatusInternalServerError])
      | .ok resp =>
        let copied := ioCopy w resp.Body
        let t := t ++ [Event.copy resp.Body copied.2]
        match copied.2 with
        | some err =>
          let t := t ++ [Event.print ("io.Copy: " ++ err ++ "\n")]
          (failRequest copied.1 http.StatusInternalServerError,
            t ++ [Event.failRequest http.StatusInternalServerError, Event.close resp.Body])
        | none => (copied.1, t ++ [Event.close resp.Body])

/-! ## Reading a list of calls -/

/-- The audiences the credential provider was asked for, in order. -/
def audiences : List Event → List String
  | [] => []
  | Event.newClient a _ :: t => a :: audiences t
  | _ :: t => audiences t

/-- The arguments of the calls of `http.NewRequest`, in order. -/
def constructed : List Event → List (String × String × ReadCloser)
  | [] => []
  | Event.newRequest m u b _ :: t => (m, u, b) :: constructed t
  | _ :: t => constructed t

/-- The requests handed to the authenticated transport (`client.Do`), with the
transport that got them, in order. -/
def executed : List Event → List (Client × ClientRequest)
  | [] => []
  | Event.clientDo c r _ :: t => (c, r) :: executed t
  | _ :: t => executed t

/-- The responses the transport returned, in order. -/
def responses : List Event → List Response
  | [] => []
  | Event.clientDo _ _ (.ok resp) :: t => resp :: responses t
  | _ :: t => responses t

/-- The bodies closed, in order. -/
def closed : List Event → List ReadCloser
  | [] => []
  | Event.close b :: t => b :: closed t
  | _ :: t => closed t

/-- The status codes `failRequest` was called with, in order. -/
def failures : List Event → List Nat
  | [] => []
  | Event.failRequest s :: t => s :: failures t
  | _ :: t => failures t

/-- The calls made after the first call of `failRequest`. -/
def afterFailure : List Event → List Event
  | [] => []
  | Event.failRequest _ :: t => t
  | _ :: t => afterFailure t

/-! ## Concrete worlds and requests -/

/-- The request `GET /svc.example.com/v1/items` with no body. -/
def getItems : Request :=
  { Method := "GET", URL := { Path := "/svc.example.com/v1/items" },
    Header := [("Accept", ["*/*"]), ("X-Trace", ["a", "b"])],
    Body := { data := [], fault := none } }

/-- A transport. -/
def someClient : Client := { token := "id-token" }

/-- The three-byte body `ok!`: the bytes 111, 107, 33. -/
def okBody : ReadCloser := { data := [111, 107, 33], fault := none }

/-- A world where everything works and the destination answers 200 with `okBody`. -/
def envOK : Env :=
  { newClient := fun _ => .ok someClient
    requestError := fun _ _ => none
    clientDo := fun _ _ => .ok { StatusCode := 200, Header := [], Body := okBody } }

/-- A world where everything works and the destination answers 200 with an empty body. -/
def envEmpty : Env :=
  { newClient := fun _ => .ok someClient
    requestError := fun _ _ => none
    clientDo := fun _ _ =>
      .ok { StatusCode := 200, Header := [], Body := { data := [], fault := none } } }

/-- A world where the destination answers 404 with `okBody`. -/
def envNotFound : Env :=
  { newClient := fun _ => .ok someClient
    requestError := fun _ _ => none
    clientDo := fun _ _ => .ok { StatusCode := 404, Header := [], Body := okBody } }

/-- A world where the credential provider fails. -/
def envNoCredential : Env :=
  { newClient := fun _ => .error "no ambient credentials"
    requestError := fun _ _ => none
    clientDo := fun _ _ => .ok { StatusCode := 200, Header := [], Body := okBody } }

/-- A world where `http.NewRequest` rejects its arguments. -/
def envBadRequest : Env :=
  { newClient := fun _ => .ok someClient
    requestError := fun _ _ => some "invalid URL"
    clientDo := fun _ _ => .ok { StatusCode := 200, Header := [], Body := okBody } }

/-- A world where the destination refuses the connection. -/
def envRefused : Env :=
  { newClient := fun _ => .ok someClient
    requestError := fun _ _ => none
    clientDo := fun _ _ => .error "connection refused" }

/-- A world where the destination answers and the relay of its body breaks
after two bytes. -/
def envBrokenRelay : Env :=
  { newClient := fun _ => .ok someClient
    requestError := fun _ _ => none
    clientDo := fun _ _ =>
      .ok { StatusCode := 200, Header := [],
            Body := { data := [111, 107, 33], fault := some (2, "unexpected EOF") } } }

/-! ## The exit paths of `ServeHTTP` -/

theorem ServeHTTP_credential_failure (env : Env) (w : ResponseWriter) (req : Request)
    (err : String) (h : env.newClient (destinationURL req.URL.Path) = .error err) :
    ServeHTTP env w req =
      (failRequest w http.StatusUnauthorized,
        [Event.print ("requestUrl = " ++ req.URL.Path ++ "\n"),
         Event.newClient (destinationURL req.URL.Path) (.error err),
         Event.print ("idtoken.NewClient: " ++ err ++ "\n"),
         Event.failRequest http.StatusUnauthorized]) := by
  simp [ServeHTTP, h]

theorem ServeHTTP_construction_failure (env : Env) (w : ResponseWriter) (req : Request)
    (client : Client) (err : String)
    (h : env.newClient (destinationURL req.URL.Path) = .ok client)
    (hr : http.NewRequest env req.Method (destinationURL req.URL.Path) req.Body = .error err) :
    ServeHTTP env w req =
      (failRequest w http.StatusInternalServerError,
        [Event.print ("requestUrl = " ++ req.URL.Path ++ "\n"),
         Event.newClient (destinationURL req.URL.Path) (.ok client),
         Event.print ("Forwarding request to: " ++ destinationURL req.URL.Path ++ "\n"),
         Event.newRequest req.Method (destinationURL req.URL.Path) req.Body (.error err),
         Event.print ("http.NewRequest: " ++ err ++ "\n"),
         Event.failRequest http.StatusInternalServerError]) := by
  simp [ServeHTTP, h, hr]

theorem ServeHTTP_execution_failure (env : Env) (w : ResponseWriter) (req : Request)
    (client : Client) (r0 : ClientRequest) (err : String)
    (h : env.newClient (destinationURL req.URL.Path) = .ok client)
    (hr : http.NewRequest env req.Method (destinationURL req.URL.Path) req.Body = .ok r0)
    (hd : env.clientDo client { r0 with Header := req.Header } = .error err) :
    ServeHTTP env w req =
      (failRequest w http.StatusInternalServerError,
        [Event.print ("requestUrl = " ++ req.URL.Path ++ "\n"),
         Event.newClient (destinationURL req.URL.Path) (.ok client),
         Event.print ("Forwarding request to: " ++ destinationURL req.URL.Path ++ "\n"),
         Event.newRequest req.Method (destinationURL req.URL.Path) req.Body (.ok r0),
         Event.clientDo client { r0 with Header := req.Header } (.error err),
         Event.print ("client.Get: " ++ err ++ "\n"),
         Event.failRequest http.StatusInternalServerError]) := by
  simp [ServeHTTP, h, hr, hd]

theorem ServeHTTP_relay_failure (env : Env) (w : ResponseWriter) (req : Request)
    (client : Client) (r0 : ClientRequest) (resp : Response) (n : Nat) (err : String)
    (h : env.newClient (destinationURL req.URL.Path) = .ok client)
    (hr : http.NewRequest env req.Method (destinationURL req.URL.Path) req.Body = .ok r0)
    (hd : env.clientDo client { r0 with Header := req.Header } = .ok resp)
    (hf : resp.Body.fault = some (n, err)) :
    ServeHTTP env w req =
      (failRequest (ioCopy w resp.Body).1 http.StatusInternalServerError,
        [Event.print ("requestUrl = " ++ req.URL.Path ++ "\n"),
         Event.newClient (destinationURL req.URL.Path) (.ok client),
         Event.print ("Forwarding request to: " ++ destinationURL req.URL.Path ++ "\n"),
         Event.newRequest req.Method (destinationURL req.URL.Path) req.Body (.ok r0),
         Event.clientDo client { r0 with Header := req.Header } (.ok resp),
         Event.copy resp.Body (some err),
         Event.print ("io.Copy: " ++ err ++ "\n"),
         Event.failRequest http.StatusInternalServerError,
         Event.close resp.Body]) := by
  simp [ServeHTTP, h, hr, hd, ioCopy, hf]

theorem ServeHTTP_relayed (env : Env) (w : ResponseWriter) (req : Request)
    (client : Client) (r0 : ClientRequest) (resp : Response)
    (h : env.newClient (destinationURL req.URL.Path) = .ok client)
    (hr : http.NewRequest env req.Method (destinationURL req.URL.Path) req.Body = .ok r0)
    (hd : env.clientDo client { r0 with Header := req.Header } = .ok resp)
    (hf : resp.Body.fault = none) :
    ServeHTTP env w req =
      ((ioCopy w resp.Body).1,
        [Event.print ("requestUrl = " ++ req.URL.Path ++ "\n"),
         Event.newClient (destinationURL req.URL.Path) (.ok client),
         Event.print ("Forwarding request to: " ++ destinationURL req.URL.Path ++ "\n"),
         Event.newRequest req.Method (destinationURL req.URL.Path) req.Body (.ok r0),
         Event.clientDo client { r0 with Header := req.Header } (.ok resp),
         Event.copy resp.Body none,
         Event.close resp.Body]) := by
  simp [ServeHTTP, h, hr, hd, ioCopy, hf]

/-! ## What the calls of one invocation are -/

theorem NewRequest_ok (env : Env) (method url : String) (body : ReadCloser)
    (r0 : ClientRequest) (hr : http.NewRequest env method url body = .ok r0) :
    r0 = { Method := if method = "" then "GET" else method, URL := url, Header := [],
           Body := body } := by
  unfold http.NewRequest at hr
  simp only at hr
  split at hr
  · exact absurd hr (by simp)
  · exact (Except.ok.inj hr).symm

theorem audiences_ServeHTTP (env : Env) (w : ResponseWriter) (req : Request) :
    audiences (ServeHTTP env w req).2 = [destinationURL req.URL.Path] := by
  rcases h : env.newClient (destinationURL req.URL.Path) with err | client
  · rw [ServeHTTP_credential_failure env w req err h]; rfl
  · rcases hr : http.NewRequest env req.Method (destinationURL req.URL.Path) req.Body
      with err | r0
    · rw [ServeHTTP_construction_failure env w req client err h hr]; rfl
    · rcases hd : env.clientDo client { r0 with Header := req.Header } with err | resp
      · rw [ServeHTTP_execution_failure env w req client r0 err h hr hd]; rfl
      · rcases hf : resp.Body.fault with _ | ⟨n, err⟩
        · rw [ServeHTTP_relayed env w req client r0 resp h hr hd hf]; rfl
        · rw [ServeHTTP_relay_failure env w req client r0 resp n err h hr hd hf]; rfl

theorem executed_of_credential_failure (env : Env) (w : ResponseWriter) (req : Request)
    (err : String) (h : env.newClient (destinationURL req.URL.Path) = .error err) :
    constructed (ServeHTTP env w req).2 = [] ∧ executed (ServeHTTP env w req).2 = [] := by
  rw [ServeHTTP_credential_failure env w req err h]; exact ⟨rfl, rfl⟩

theorem executed_of_construction_failure (env : Env) (w : ResponseWriter) (req : Request)
    (client : Client) (err : String)
    (h : env.newClient (destinationURL req.URL.Path) = .ok client)
    (hr : http.NewRequest env req.Method (destinationURL req.URL.Path) req.Body = .error err) :
    executed (ServeHTTP env w req).2 = [] := by
  rw [ServeHTTP_construction_failure env w req client err h hr]; rfl

theorem executed_of_construction (env : Env) (w : ResponseWriter) (req : Request)
    (client : Client) (r0 : ClientRequest)
    (h : env.newClient (destinationURL req.URL.Path) = .ok client)
    (hr : http.NewRequest env req.Method (destinationURL req.URL.Path) req.Body = .ok r0) :
    executed (ServeHTTP env w req).2 = [(client, { r0 with Header := req.Header })] := by
  rcases hd : env.clientDo client { r0 with Header := req.Header } with err | resp
  · rw [ServeHTTP_execution_failure env w req client r0 err h hr hd]; rfl
  · rcases hf : resp.Body.fault with _ | ⟨n, err⟩
    · rw [ServeHTTP_relayed env w req client r0 resp h hr hd hf]; rfl
    · rw [ServeHTTP_relay_failure env w req client r0 resp n err h hr hd hf]; rfl

theorem executed_url (env : Env) (w : ResponseWriter) (req : Request)
    (x : Client × ClientRequest) (hx : x ∈ executed (ServeHTTP env w req).2) :
    x.2.URL = destinationURL req.URL.Path := by
  rcases h : env.newClient (destinationURL req.URL.Path) with err | client
  · rw [(executed_of_credential_failure env w req err h).2] at hx; simp at hx
  · rcases hr : http.NewRequest env req.Method (destinationURL req.URL.Path) req.Body
      with err | r0
    · rw [executed_of_construction_failure env w req client err h hr] at hx; simp at hx
    · rw [executed_of_construction env w req client r0 h hr] at hx
      have h0 := NewRequest_ok env _ _ _ r0 hr
      simp only [List.mem_singleton] at hx
      rw [hx, h0]

theorem httpError_body (w : ResponseWriter) (msg : String) (code : Nat) :
    (http.Error w msg code).body = w.body ++ utf8 (msg ++ "\n") := by
  rcases w with ⟨st, b⟩
  cases st <;> rfl

theorem ioCopy_complete (w : ResponseWriter) (src : ReadCloser) (hf : src.fault = none) :
    (ioCopy w src).1.body = w.body ++ src.data ∧
    (ioCopy w src).1.callerStatus = w.callerStatus := by
  unfold ioCopy
  simp only [hf]
  by_cases hd : src.data = []
  · simp [hd]
  · simp only [hd, if_false]
    rcases w with ⟨st, b⟩
    cases st <;>
      simp [ResponseWriter.Write, ResponseWriter.WriteHeader, ResponseWriter.callerStatus]

theorem ioCopy_partial (w : ResponseWriter) (src : ReadCloser) (n : Nat) (err : String)
    (hf : src.fault = some (n, err)) :
    (ioCopy w src).1.body = w.body ++ src.data.take n := by
  unfold ioCopy
  simp only [hf]
  by_cases hd : List.take n src.data = []
  · simp [hd]
  · simp only [hd, if_false]
    rcases w with ⟨st, b⟩
    cases st <;> simp [ResponseWriter.Write, ResponseWriter.WriteHeader]

/-! ## The claims -/

/-- C1, as stated, fails: for the request path `/svc.example.com/v1/items` the
URL the handler derives, asks a credential for and sends the request to is
`https://svc.example.com/v1/items`, which is not `https://` followed by the
path (that would be `https:///svc.example.com/v1/items`). -/
theorem C1_counterexample :
    destinationURL getItems.URL.Path = "https://svc.example.com/v1/items" ∧
    destinationURL getItems.URL.Path ≠ "https://" ++ getItems.URL.Path ∧
    audiences (ServeHTTP envOK ResponseWriter.fresh getItems).2
      ≠ ["https://" ++ getItems.URL.Path] ∧
    (executed (ServeHTTP envOK ResponseWriter.fresh getItems).2).map (fun x => x.2.URL)
      ≠ ["https://" ++ getItems.URL.Path] := by
  decide

/-- C1, amended: for every inbound request path p, taken as it is, the
destination URL that `ServeHTTP` derives is exactly `https:/` (one slash)
followed by p; that string is the one audience the credential provider is asked
for, it is the URL of every request handed to the transport, and once the
credential and the construction succeed it is the URL of the request that is
handed to the transport. -/
theorem C1_destination_is_https_slash_then_path (env : Env) (w : ResponseWriter)
    (req : Request) :
    destinationURL req.URL.Path = "https:/" ++ req.URL.Path ∧
    audiences (ServeHTTP env w req).2 = ["https:/" ++ req.URL.Path] ∧
    (∀ x ∈ executed (ServeHTTP env w req).2, x.2.URL = "https:/" ++ req.URL.Path) ∧
    (∀ client r0, env.newClient ("https:/" ++ req.URL.Path) = .ok client →
      http.NewRequest env req.Method ("https:/" ++ req.URL.Path) req.Body = .ok r0 →
      (executed (ServeHTTP env w req).2).map (fun x => x.2.URL)
        = ["https:/" ++ req.URL.Path]) := by
  refine ⟨rfl, audiences_ServeHTTP env w req, fun x hx => executed_url env w req x hx, ?_⟩
  intro client r0 h hr
  have h0 := NewRequest_ok env _ _ _ r0 hr
  rw [executed_of_construction env w req client r0 h hr, h0]
  rfl

/-- C2: for every host h and remainder r, a request whose path is `/` then h
then r, for which the credential and the construction succeed, is handed to the
transport with the URL `https://` then h then r (two slashes between scheme
and host), the same string being the audience; the path
`/service.example.com/api/x` gives `https://service.example.com/api/x` and
`/svc.example.com/v1/items` gives `https://svc.example.com/v1/items`. -/
theorem C2_host_in_path_is_forwarded_to_https_host (env : Env) (w : ResponseWriter)
    (req : Request) (h r : String) (client : Client) (r0 : ClientRequest)
    (hp : req.URL.Path = "/" ++ h ++ r)
    (hc : env.newClient (destinationURL req.URL.Path) = .ok client)
    (hr : http.NewRequest env req.Method (destinationURL req.URL.Path) req.Body = .ok r0) :
    destinationURL ("/" ++ h ++ r) = "https://" ++ h ++ r ∧
    audiences (ServeHTTP env w req).2 = ["https://" ++ h ++ r] ∧
    (executed (ServeHTTP env w req).2).map (fun x => x.2.URL) = ["https://" ++ h ++ r] ∧
    destinationURL "/service.example.com/api/x" = "https://service.example.com/api/x" ∧
    destinationURL "/svc.example.com/v1/items" = "https://svc.example.com/v1/items" := by
  have hu : destinationURL ("/" ++ h ++ r) = "https://" ++ h ++ r := by
    unfold destinationURL
    rw [← String.append_assoc, ← String.append_assoc]
    rfl
  have h0 := NewRequest_ok env _ _ _ r0 hr
  refine ⟨hu, ?_, ?_, by decide, by decide⟩
  · rw [audiences_ServeHTTP, hp, hu]
  · rw [executed_of_construction env w req client r0 hc hr, h0, hp, hu]
    rfl

/-- C2 at the request `GET /svc.example.com/v1/items` (host `svc.example.com`,
remainder `/v1/items`) in a world where everything works. -/
theorem C2_witness :
    destinationURL ("/" ++ "svc.example.com" ++ "/v1/items")
      = "https://" ++ "svc.example.com" ++ "/v1/items" ∧
    audiences (ServeHTTP envOK ResponseWriter.fresh getItems).2
      = ["https://" ++ "svc.example.com" ++ "/v1/items"] ∧
    (executed (ServeHTTP envOK ResponseWriter.fresh getItems).2).map (fun x => x.2.URL)
      = ["https://" ++ "svc.example.com" ++ "/v1/items"] ∧
    destinationURL "/service.example.com/api/x" = "https://service.example.com/api/x" ∧
    destinationURL "/svc.example.com/v1/items" = "https://svc.example.com/v1/items" :=
  C2_host_in_path_is_forwarded_to_https_host envOK ResponseWriter.fresh getItems
    "svc.example.com" "/v1/items" someClient
    { Method := "GET", URL := "https://svc.example.com/v1/items", Header := [],
      Body := { data := [], fault := none } }
    (by decide) (by rfl) (by rfl)

/-- C3: when the credential provider returns an error for the derived audience,
the caller gets status 401 and the body `Unauthorized` with its newline, the
handler fails the request once, and it neither calls `http.NewRequest` nor
hands any request to a transport. -/
theorem C3_credential_failure_gives_401_and_no_outbound (env : Env) (req : Request)
    (err : String) (h : env.newClient (destinationURL req.URL.Path) = .error err) :
    (ServeHTTP env ResponseWriter.fresh req).1.status = some 401 ∧
    (ServeHTTP env ResponseWriter.fresh req).1.callerStatus = 401 ∧
    (ServeHTTP env ResponseWriter.fresh req).1.body = utf8 "Unauthorized\n" ∧
    constructed (ServeHTTP env ResponseWriter.fresh req).2 = [] ∧
    executed (ServeHTTP env ResponseWriter.fresh req).2 = [] ∧
    responses (ServeHTTP env ResponseWriter.fresh req).2 = [] ∧
    failures (ServeHTTP env ResponseWriter.fresh req).2 = [401] := by
  rw [ServeHTTP_credential_failure env ResponseWriter.fresh req err h]
  exact ⟨rfl, rfl, rfl, rfl, rfl, rfl, rfl⟩

/-- C3 at the request `GET /svc.example.com/v1/items` in a world where the
credential provider fails. -/
theorem C3_witness :
    (ServeHTTP envNoCredential ResponseWriter.fresh getItems).1.status = some 401 ∧
    (ServeHTTP envNoCredential ResponseWriter.fresh getItems).1.callerStatus = 401 ∧
    (ServeHTTP envNoCredential ResponseWriter.fresh getItems).1.body
      = utf8 "Unauthorized\n" ∧
    constructed (ServeHTTP envNoCredential ResponseWriter.fresh getItems).2 = [] ∧
    executed (ServeHTTP envNoCredential ResponseWriter.fresh getItems).2 = [] ∧
    responses (ServeHTTP envNoCredential ResponseWriter.fresh getItems).2 = [] ∧
    failures (ServeHTTP envNoCredential ResponseWriter.fresh getItems).2 = [401] :=
  C3_credential_failure_gives_401_and_no_outbound envNoCredential getItems
    "no ambient credentials" (by rfl)

/-- C4 fails on the code: for `GET /svc.example.com/v1/items`, when the
destination refuses the connection and when `http.NewRequest` rejects its
arguments, the handler calls `failRequest` with 500 and the caller gets status
401, not 500, with the body `Unauthorized`; no response was obtained and no
byte of a destination body is sent. -/
theorem C4_execution_failure_gives_401_not_500 :
    failures (ServeHTTP envRefused ResponseWriter.fresh getItems).2 = [500] ∧
    (ServeHTTP envRefused ResponseWriter.fresh getItems).1.callerStatus = 401 ∧
    (ServeHTTP envRefused ResponseWriter.fresh getItems).1.callerStatus ≠ 500 ∧
    (ServeHTTP envRefused ResponseWriter.fresh getItems).1.body = utf8 "Unauthorized\n" ∧
    responses (ServeHTTP envRefused ResponseWriter.fresh getItems).2 = [] ∧
    failures (ServeHTTP envBadRequest ResponseWriter.fresh getItems).2 = [500] ∧
    (ServeHTTP envBadRequest ResponseWriter.fresh getItems).1.callerStatus = 401 ∧
    (ServeHTTP envBadRequest ResponseWriter.fresh getItems).1.callerStatus ≠ 500 ∧
    (ServeHTTP envBadRequest ResponseWriter.fresh getItems).1.body
      = utf8 "Unauthorized\n" := by
  decide

/-- C5: the failure body does not depend on the failure kind.  For every status
code s, `failRequest` does what it does for 401: it is `http.Error` with the
text of 401 and the code 401, and it appends `Unauthorized` and a newline to
the body.  On each failure path of `ServeHTTP` (credential, construction,
execution, relay) the writer is left as `failRequest` leaves it, so the body
is what was written before (nothing on the first three paths, the bytes
relayed so far on the last) followed by `Unauthorized` and a newline; the
text of the error of the provider or of the destination does not occur in it. -/
theorem C5_failure_body_is_unauthorized_for_every_status (env : Env) (w : ResponseWriter)
    (req : Request) (s : Nat) :
    failRequest w s = failRequest w http.StatusUnauthorized ∧
    failRequest w s = http.Error w (http.StatusText 401) 401 ∧
    http.StatusText 401 = "Unauthorized" ∧
    (failRequest w s).body = w.body ++ utf8 "Unauthorized\n" ∧
    (failRequest ResponseWriter.fresh s).body
      = [85, 110, 97, 117, 116, 104, 111, 114, 105, 122, 101, 100, 10] ∧
    (∀ err, env.newClient (destinationURL req.URL.Path) = .error err →
      (ServeHTTP env w req).1 = failRequest w s ∧
      (ServeHTTP env w req).1.body = w.body ++ utf8 "Unauthorized\n") ∧
    (∀ client err, env.newClient (destinationURL req.URL.Path) = .ok client →
      http.NewRequest env req.Method (destinationURL req.URL.Path) req.Body = .error err →
      (ServeHTTP env w req).1 = failRequest w s ∧
      (ServeHTTP env w req).1.body = w.body ++ utf8 "Unauthorized\n") ∧
    (∀ client r0 err, env.newClient (destinationURL req.URL.Path) = .ok client →
      http.NewRequest env req.Method (destinationURL req.URL.Path) req.Body = .ok r0 →
      env.clientDo client { r0 with Header := req.Header } = .error err →
      (ServeHTTP env w req).1 = failRequest w s ∧
      (ServeHTTP env w req).1.body = w.body ++ utf8 "Unauthorized\n") ∧
    (∀ client r0 resp n err, env.newClient (destinationURL req.URL.Path) = .ok client →
      http.NewRequest env req.Method (destinationURL req.URL.Path) req.Body = .ok r0 →
      env.clientDo client { r0 with Header := req.Header } = .ok resp →
      resp.Body.fault = some (n, err) →
      (ServeHTTP env w req).1 = failRequest (ioCopy w resp.Body).1 s ∧
      (ServeHTTP env w req).1.body
        = w.body ++ resp.Body.data.take n ++ utf8 "Unauthorized\n") ∧
    (ServeHTTP envNoCredential ResponseWriter.fresh getItems).1.body
      = utf8 "Unauthorized\n" ∧
    (ServeHTTP envBadRequest ResponseWriter.fresh getItems).1.body
      = utf8 "Unauthorized\n" ∧
    (ServeHTTP envRefused ResponseWriter.fresh getItems).1.body
      = utf8 "Unauthorized\n" ∧
    (ServeHTTP envBrokenRelay ResponseWriter.fresh getItems).1.body
      = [111, 107] ++ utf8 "Unauthorized\n" := by
  have hb : ∀ v : ResponseWriter, (failRequest v s).body = v.body ++ utf8 "Unauthorized\n" :=
    fun v => httpError_body v "Unauthorized" 401
  have h0 : (failRequest ResponseWriter.fresh 401).body
      = [85, 110, 97, 117, 116, 104, 111, 114, 105, 122, 101, 100, 10] := by decide
  refine ⟨rfl, rfl, rfl, hb w, h0, ?_, ?_, ?_, ?_, by decide, by decide, by decide,
    by decide⟩
  · intro err h
    rw [ServeHTTP_credential_failure env w req err h]
    exact ⟨rfl, hb w⟩
  · intro client err h hr
    rw [ServeHTTP_construction_failure env w req client err h hr]
    exact ⟨rfl, hb w⟩
  · intro client r0 err h hr hd
    rw [ServeHTTP_execution_failure env w req client r0 err h hr hd]
    exact ⟨rfl, hb w⟩
  · intro client r0 resp n err h hr hd hf
    rw [ServeHTTP_relay_failure env w req client r0 resp n err h hr hd hf]
    refine ⟨rfl, ?_⟩
    show (failRequest (ioCopy w resp.Body).1 s).body = _
    rw [hb, ioCopy_partial w resp.Body n err hf]

/-- C6: when the credential, the construction and the execution succeed and
the relay runs to the end of the destination body, the caller gets status 200
and a body equal to the destination body, byte for byte, whatever that body is
(the empty one included) and whatever status the destination answered. -/
theorem C6_success_relays_body_with_status_200 (env : Env) (req : Request)
    (client : Client) (r0 : ClientRequest) (resp : Response)
    (hc : env.newClient (destinationURL req.URL.Path) = .ok client)
    (hr : http.NewRequest env req.Method (destinationURL req.URL.Path) req.Body = .ok r0)
    (hd : env.clientDo client { r0 with Header := req.Header } = .ok resp)
    (hf : resp.Body.fault = none) :
    (ServeHTTP env ResponseWriter.fresh req).1.callerStatus = 200 ∧
    (ServeHTTP env ResponseWriter.fresh req).1.body = resp.Body.data ∧
    failures (ServeHTTP env ResponseWriter.fresh req).2 = [] := by
  rw [ServeHTTP_relayed env ResponseWriter.fresh req client r0 resp hc hr hd hf]
  have hcopy := ioCopy_complete ResponseWriter.fresh resp.Body hf
  refine ⟨?_, ?_, rfl⟩
  · exact hcopy.2
  · rw [hcopy.1]; rfl

/-- C6 at the request `GET /svc.example.com/v1/items`, once with a destination
body of three bytes and once with the empty destination body. -/
theorem C6_witness :
    ((ServeHTTP envOK ResponseWriter.fresh getItems).1.callerStatus = 200 ∧
      (ServeHTTP envOK ResponseWriter.fresh getItems).1.body = [111, 107, 33] ∧
      failures (ServeHTTP envOK ResponseWriter.fresh getItems).2 = []) ∧
    ((ServeHTTP envEmpty ResponseWriter.fresh getItems).1.callerStatus = 200 ∧
      (ServeHTTP envEmpty ResponseWriter.fresh getItems).1.body = [] ∧
      failures (ServeHTTP envEmpty ResponseWriter.fresh getItems).2 = []) :=
  ⟨C6_success_relays_body_with_status_200 envOK getItems someClient
      { Method := "GET", URL := "https://svc.example.com/v1/items", Header := [],
        Body := { data := [], fault := none } }
      { StatusCode := 200, Header := [], Body := okBody } (by rfl) (by rfl) (by rfl) (by rfl),
   C6_success_relays_body_with_status_200 envEmpty getItems someClient
      { Method := "GET", URL := "https://svc.example.com/v1/items", Header := [],
        Body := { data := [], fault := none } }
      { StatusCode := 200, Header := [], Body := { data := [], fault := none } }
      (by rfl) (by rfl) (by rfl) (by rfl)⟩

/-- C7, as stated, fails: when the destination answers 404 to
`GET /svc.example.com/v1/items` and the relay completes, the caller gets
status 200, not 404. -/
theorem C7_counterexample :
    (responses (ServeHTTP envNotFound ResponseWriter.fresh getItems).2).map
      (fun resp => resp.StatusCode) = [404] ∧
    failures (ServeHTTP envNotFound ResponseWriter.fresh getItems).2 = [] ∧
    (ServeHTTP envNotFound ResponseWriter.fresh getItems).1.callerStatus = 200 ∧
    (ServeHTTP envNotFound ResponseWriter.fresh getItems).1.callerStatus ≠ 404 := by
  decide

/-- C7, amended: on success `ServeHTTP` does not copy the status of the
destination: for every destination response for which the relay completes,
whatever its status code c, the caller gets status 200, which equals c only
when c is 200. -/
theorem C7_success_status_is_200_whatever_the_destination_status (env : Env)
    (req : Request) (client : Client) (r0 : ClientRequest) (resp : Response)
    (hc : env.newClient (destinationURL req.URL.Path) = .ok client)
    (hr : http.NewRequest env req.Method (destinationURL req.URL.Path) req.Body = .ok r0)
    (hd : env.clientDo client { r0 with Header := req.Header } = .ok resp)
    (hf : resp.Body.fault = none) :
    (ServeHTTP env ResponseWriter.fresh req).1.callerStatus = 200 ∧
    ((ServeHTTP env ResponseWriter.fresh req).1.callerStatus = resp.StatusCode
      ↔ resp.StatusCode = 200) := by
  have h200 : (ServeHTTP env ResponseWriter.fresh req).1.callerStatus = 200 := by
    rw [ServeHTTP_relayed env ResponseWriter.fresh req client r0 resp hc hr hd hf]
    exact (ioCopy_complete ResponseWriter.fresh resp.Body hf).2
  refine ⟨h200, ?_⟩
  rw [h200]
  exact ⟨fun h => h.symm, fun h => h.symm⟩

/-- C7 amended, at a destination that answers 404. -/
theorem C7_witness :
    (ServeHTTP envNotFound ResponseWriter.fresh getItems).1.callerStatus = 200 ∧
    ((ServeHTTP envNotFound ResponseWriter.fresh getItems).1.callerStatus = 404
      ↔ 404 = 200) :=
  C7_success_status_is_200_whatever_the_destination_status envNotFound getItems someClient
    { Method := "GET", URL := "https://svc.example.com/v1/items", Header := [],
      Body := { data := [], fault := none } }
    { StatusCode := 404, Header := [], Body := okBody }
    (by rfl) (by rfl) (by rfl) (by rfl)

/-- C8: for every inbound request (the server hands over none with an empty
method) for which the credential and the construction succeed, exactly one
request is handed to the transport obtained for it; it has the method of the
inbound request, the derived destination URL, the body stream of the inbound
request and, as its header set, the whole header set of the inbound request;
`http.NewRequest` was called with that method, URL and body. -/
theorem C8_outbound_request_carries_method_url_headers_body (env : Env)
    (w : ResponseWriter) (req : Request) (client : Client) (r0 : ClientRequest)
    (hm : req.Method ≠ "")
    (hc : env.newClient (destinationURL req.URL.Path) = .ok client)
    (hr : http.NewRequest env req.Method (destinationURL req.URL.Path) req.Body = .ok r0) :
    executed (ServeHTTP env w req).2 =
      [(client, { Method := req.Method, URL := destinationURL req.URL.Path,
                  Header := req.Header, Body := req.Body })] ∧
    constructed (ServeHTTP env w req).2 =
      [(req.Method, destinationURL req.URL.Path, req.Body)] := by
  have h0 := NewRequest_ok env _ _ _ r0 hr
  rw [if_neg hm] at h0
  refine ⟨?_, ?_⟩
  · rw [executed_of_construction env w req client r0 hc hr, h0]
  · rcases hd : env.clientDo client { r0 with Header := req.Header } with err | resp
    · rw [ServeHTTP_execution_failure env w req client r0 err hc hr hd]; rfl
    · rcases hf : resp.Body.fault with _ | ⟨n, err⟩
      · rw [ServeHTTP_relayed env w req client r0 resp hc hr hd hf]; rfl
      · rw [ServeHTTP_relay_failure env w req client r0 resp n err hc hr hd hf]; rfl

/-- C8 at the request `GET /svc.example.com/v1/items` with two header names,
one of them with two values. -/
theorem C8_witness :
    executed (ServeHTTP envOK ResponseWriter.fresh getItems).2 =
      [(someClient, { Method := "GET", URL := "https://svc.example.com/v1/items",
                      Header := [("Accept", ["*/*"]), ("X-Trace", ["a", "b"])],
                      Body := { data := [], fault := none } })] ∧
    constructed (ServeHTTP envOK ResponseWriter.fresh getItems).2 =
      [("GET", "https://svc.example.com/v1/items", { data := [], fault := none })] :=
  C8_outbound_request_carries_method_url_headers_body envOK ResponseWriter.fresh getItems
    someClient
    { Method := "GET", URL := "https://svc.example.com/v1/items", Header := [],
      Body := { data := [], fault := none } }
    (by decide) (by rfl) (by rfl)

/-- C9: one invocation of `ServeHTTP` calls the credential provider exactly
once, with the derived destination URL as the audience; it calls
`http.NewRequest` at most once and hands at most one request to a transport;
it fails the request at most once, and after that it calls neither the
credential provider nor `http.NewRequest` nor a transport again. -/
theorem C9_one_credential_call_and_at_most_one_execution (env : Env) (w : ResponseWriter)
    (req : Request) :
    audiences (ServeHTTP env w req).2 = [destinationURL req.URL.Path] ∧
    (constructed (ServeHTTP env w req).2).length ≤ 1 ∧
    (executed (ServeHTTP env w req).2).length ≤ 1 ∧
    (failures (ServeHTTP env w req).2).length ≤ 1 ∧
    audiences (afterFailure (ServeHTTP env w req).2) = [] ∧
    constructed (afterFailure (ServeHTTP env w req).2) = [] ∧
    executed (afterFailure (ServeHTTP env w req).2) = [] := by
  rcases h : env.newClient (destinationURL req.URL.Path) with err | client
  · rw [ServeHTTP_credential_failure env w req err h]
    simp [audiences, constructed, executed, failures, afterFailure]
  · rcases hr : http.NewRequest env req.Method (destinationURL req.URL.Path) req.Body
      with err | r0
    · rw [ServeHTTP_construction_failure env w req client err h hr]
      simp [audiences, constructed, executed, failures, afterFailure]
    · rcases hd : env.clientDo client { r0 with Header := req.Header } with err | resp
      · rw [ServeHTTP_execution_failure env w req client r0 err h hr hd]
        simp [audiences, constructed, executed, failures, afterFailure]
      · rcases hf : resp.Body.fault with _ | ⟨n, err⟩
        · rw [ServeHTTP_relayed env w req client r0 resp h hr hd hf]
          simp [audiences, constructed, executed, failures, afterFailure]
        · rw [ServeHTTP_relay_failure env w req client r0 resp n err h hr hd hf]
          simp [audiences, constructed, executed, failures, afterFailure]

/-- C10: in every invocation the bodies closed are exactly the bodies of the
responses the transport returned, and there is at most one.  When the
transport returns a response its body is closed exactly once and the close is
the last call of the handler, whether the relay completes or fails; when the
credential, the construction or the execution fails nothing is closed. -/
theorem C10_response_body_closed_exactly_once (env : Env) (w : ResponseWriter)
    (req : Request) :
    closed (ServeHTTP env w req).2
      = (responses (ServeHTTP env w req).2).map (fun resp => resp.Body) ∧
    (closed (ServeHTTP env w req).2).length ≤ 1 ∧
    (∀ client r0 resp, env.newClient (destinationURL req.URL.Path) = .ok client →
      http.NewRequest env req.Method (destinationURL req.URL.Path) req.Body = .ok r0 →
      env.clientDo client { r0 with Header := req.Header } = .ok resp →
      closed (ServeHTTP env w req).2 = [resp.Body] ∧
      (ServeHTTP env w req).2.getLast? = some (Event.close resp.Body)) ∧
    (∀ err, env.newClient (destinationURL req.URL.Path) = .error err →
      closed (ServeHTTP env w req).2 = []) ∧
    (∀ client err, env.newClient (destinationURL req.URL.Path) = .ok client →
      http.NewRequest env req.Method (destinationURL req.URL.Path) req.Body = .error err →
      closed (ServeHTTP env w req).2 = []) ∧
    (∀ client r0 err, env.newClient (destinationURL req.URL.Path) = .ok client →
      http.NewRequest env req.Method (destinationURL req.URL.Path) req.Body = .ok r0 →
      env.clientDo client { r0 with Header := req.Header } = .error err →
      closed (ServeHTTP env w req).2 = []) ∧
    closed (ServeHTTP envOK ResponseWriter.fresh getItems).2 = [okBody] ∧
    closed (ServeHTTP envBrokenRelay ResponseWriter.fresh getItems).2
      = [{ data := [111, 107, 33], fault := some (2, "unexpected EOF") }] ∧
    closed (ServeHTTP envRefused ResponseWriter.fresh getItems).2 = [] := by
  refine ⟨?_, ?_, ?_, ?_, ?_, ?_, by decide, by decide, by decide⟩
  · rcases h : env.newClient (destinationURL req.URL.Path) with err | client
    · rw [ServeHTTP_credential_failure env w req err h]; rfl
    · rcases hr : http.NewRequest env req.Method (destinationURL req.URL.Path) req.Body
        with err | r0
      · rw [ServeHTTP_construction_failure env w req client err h hr]; rfl
      · rcases hd : env.clientDo client { r0 with Header := req.Header } with err | resp
        · rw [ServeHTTP_execution_failure env w req client r0 err h hr hd]; rfl
        · rcases hf : resp.Body.fault with _ | ⟨n, err⟩
          · rw [ServeHTTP_relayed env w req client r0 resp h hr hd hf]; rfl
          · rw [ServeHTTP_relay_failure env w req client r0 resp n err h hr hd hf]; rfl
  · rcases h : env.newClient (destinationURL req.URL.Path) with err | client
    · rw [ServeHTTP_credential_failure env w req err h]; simp [closed]
    · rcases hr : http.NewRequest env req.Method (destinationURL req.URL.Path) req.Body
        with err | r0
      · rw [ServeHTTP_construction_failure env w req client err h hr]; simp [closed]
      · rcases hd : env.clientDo client { r0 with Header := req.Header } with err | resp
        · rw [ServeHTTP_execution_failure env w req client r0 err h hr hd]; simp [closed]
        · rcases hf : resp.Body.fault with _ | ⟨n, err⟩
          · rw [ServeHTTP_relayed env w req client r0 resp h hr hd hf]; simp [closed]
          · rw [ServeHTTP_relay_failure env w req client r0 resp n err h hr hd hf]
            simp [closed]
  · intro client r0 resp h hr hd
    rcases hf : resp.Body.fault with _ | ⟨n, err⟩
    · rw [ServeHTTP_relayed env w req client r0 resp h hr hd hf]; exact ⟨rfl, rfl⟩
    · rw [ServeHTTP_relay_failure env w req client r0 resp n err h hr hd hf]
      exact ⟨rfl, rfl⟩
  · intro err h
    rw [ServeHTTP_credential_failure env w req err h]; rfl
  · intro client err h hr
    rw [ServeHTTP_construction_failure env w req client err h hr]; rfl
  · intro client r0 err h hr hd
    rw [ServeHTTP_execution_failure env w req client r0 err h hr hd]; rfl

end ServerlessProxy
